import Mathlib

/-!
Shallow embedding of the Trade-Size-Calculator engine (`src/app.py`).

Numbers are modelled as exact rationals (`ℚ`): the source computes with
Python `Decimal` (exact decimal arithmetic) in the main table and with
`float` elsewhere; `ℚ` is the exact-arithmetic idealization of both.
Text is modelled as `String` / `List Char`, with the Python string
operations (`strip`, `split`, `float`) embedded explicitly below.
-/

namespace TradeCalc

/-- Whitespace characters recognised by Python `str.strip`. -/
def isPySpace (c : Char) : Bool :=
  c = ' ' || c = '\t' || c = '\n' || c = '\r' || c = '\x0b' || c = '\x0c'

/-- Model of Python `str.strip`: drop leading and trailing whitespace. -/
def pyStrip (cs : List Char) : List Char :=
  ((cs.dropWhile isPySpace).reverse.dropWhile isPySpace).reverse

/-- Model of Python `str.split(',')`: the (possibly empty) chunks between
commas. The accumulator holds the current chunk reversed. -/
def splitCommas : List Char → List Char → List (List Char)
  | [], acc => [acc.reverse]
  | c :: cs, acc =>
    if c = ',' then acc.reverse :: splitCommas cs [] else splitCommas cs (c :: acc)

/-- Numeric value of a list of ASCII digits. -/
def digitsVal (cs : List Char) : ℕ :=
  cs.foldl (fun a c => 10 * a + (c.toNat - 48)) 0

/-- Consume an optional leading sign; `true` means negative. -/
def parseSign : List Char → Bool × List Char
  | '+' :: cs => (false, cs)
  | '-' :: cs => (true, cs)
  | cs => (false, cs)

/-- Split a list at the first character satisfying `p`: the part before it,
and (when the character occurs) the part after it. -/
def breakOn (p : Char → Bool) : List Char → List Char × Option (List Char)
  | [] => ([], none)
  | c :: cs =>
    if p c then ([], some cs)
    else
      let r := breakOn p cs
      (c :: r.1, r.2)

/-- Model of Python `float(token)` on an already-stripped token, as an exact
rational: optional sign, then `digits [. digits]` or `. digits`, then an
optional exponent `e`/`E` with optional sign and digits. (The rarely used
forms `inf`, `nan` and digit-group underscores are not modelled.) -/
def parsePyFloat (cs : List Char) : Option ℚ :=
  let s := parseSign cs
  let m := breakOn (fun c => c = 'e' || c = 'E') s.2
  let ipfp := breakOn (fun c => c = '.') m.1
  let ip := ipfp.1
  let fp := (ipfp.2).getD []
  if ip.all Char.isDigit && fp.all Char.isDigit && (!ip.isEmpty || !fp.isEmpty) then
    let mantVal : ℚ := (digitsVal ip : ℚ) + (digitsVal fp : ℚ) / 10 ^ fp.length
    let withExp : Option ℚ :=
      match m.2 with
      | none => some mantVal
      | some ecs =>
        let es := parseSign ecs
        if !(es.2).isEmpty && (es.2).all Char.isDigit then
          some (if es.1 then mantVal / 10 ^ digitsVal es.2
                else mantVal * 10 ^ digitsVal es.2)
        else none
    withExp.map (fun v => if s.1 then -v else v)
  else none

/-- Model of Python `sorted(set(xs))`: duplicates collapse by exact numeric
value and the distinct values are listed in ascending order. -/
def sortedDedup (xs : List ℚ) : List ℚ :=
  List.insertionSort (· ≤ ·) xs.dedup

/-- The token loop of `parse_risk_levels` (src/app.py lines 219-226): strip
each comma-separated part, skip empty parts, parse the rest as floats, and
fail at the first malformed token, naming it. -/
def parseParts : List (List Char) → Except String (List ℚ)
  | [] => .ok []
  | p :: rest =>
    let part := pyStrip p
    if part.isEmpty then parseParts rest
    else
      match parsePyFloat part with
      | some v =>
        match parseParts rest with
        | .ok vs => .ok (v :: vs)
        | .error e => .error e
      | none => .error ("مقدار \x27" ++ String.mk part ++ "\x27 معتبر نیست.")

/-- Model of `parse_risk_levels` (src/app.py lines 210-235): reject empty or
whitespace-only input, map the localized comma `،` to `,`, split on commas,
parse each stripped non-empty token as a float, reject when no token remains,
and return `sorted(set(values))`. -/
def parse_risk_levels (risk_input : String) : Except String (List ℚ) :=
  if (pyStrip risk_input.data).isEmpty then
    .error ("لطفاً سطوح ریسک را وارد کنید.")
  else
    match parseParts (splitCommas (risk_input.data.map fun c => if c = '،' then ',' else c) []) with
    | .error e => .error e
    | .ok [] => .error ("لطفاً حداقل یک سطح ریسک معتبر وارد کنید.")
    | .ok vs => .ok (sortedDedup vs)

/-- The per-risk-level loop of `validate_inputs` (src/app.py lines 203-207):
the first out-of-range level produces the error. -/
def check_risk_levels : List ℚ → Option String
  | [] => none
  | risk :: rest =>
    if risk ≤ 0 then some ("تمام سطوح ریسک باید بیشتر از صفر باشند.")
    else if risk ≥ 100 then some ("سطوح ریسک نمی‌توانند بیشتر یا مساوی ۱۰۰٪ باشند.")
    else check_risk_levels rest

/-- Model of `validate_inputs` (src/app.py lines 189-208): the constraints
are checked in source order and the first violated one is the error. -/
def validate_inputs (capital stop_loss_percentage : ℚ) (risk_levels : List ℚ)
    (leverage : ℚ) : Option String :=
  if capital ≤ 0 then some ("سرمایه باید بیشتر از صفر باشد.")
  else if stop_loss_percentage ≤ 0 then some ("درصد حد ضرر باید بیشتر از صفر باشد.")
  else if stop_loss_percentage ≥ 100 then some ("درصد حد ضرر نمی‌تواند بیشتر یا مساوی ۱۰۰٪ باشد.")
  else if leverage < 1 then some ("اهرم باید حداقل ۱ باشد.")
  else if leverage > 125 then some ("اهرم نمی‌تواند بیشتر از ۱۲۵ باشد.")
  else if risk_levels.isEmpty then some ("لطفاً حداقل یک سطح ریسک وارد کنید.")
  else check_risk_levels risk_levels

/-- Model of `calculate_sl_from_prices` (src/app.py lines 237-242). -/
def calculate_sl_from_prices (entry_price sl_price : ℚ) (position_type : String) : ℚ :=
  if position_type = "Long" then |(entry_price - sl_price) / entry_price * 100|
  else |(sl_price - entry_price) / entry_price * 100|

/-- One column of the risk-management table: the values computed per risk
level by `create_risk_management_table` (margin only when leverage > 1). -/
structure SizingRow where
  dollar_risk : ℚ
  position_size : ℚ
  margin_required : Option ℚ
deriving DecidableEq

/-- The per-risk-level body of `create_risk_management_table`
(src/app.py lines 274-287). -/
def sizing_row (capital stop_loss_percentage leverage risk_percent : ℚ) : SizingRow :=
  let sl_factor := stop_loss_percentage / 100
  let risk_factor := risk_percent / 100
  let dollar_risk := capital * risk_factor
  let position_size := capital * risk_factor / sl_factor
  let margin_required := position_size / leverage
  { dollar_risk := dollar_risk
    position_size := position_size
    margin_required := if leverage > 1 then some margin_required else none }

/-- Model of `create_risk_management_table` (src/app.py lines 257-298):
validate, then produce one row per risk level, keyed by the risk percent. -/
def create_risk_management_table (capital stop_loss_percentage : ℚ)
    (risk_levels : List ℚ) (leverage : ℚ) :
    Except String (List (ℚ × SizingRow)) :=
  match validate_inputs capital stop_loss_percentage risk_levels leverage with
  | some error => .error error
  | none =>
    .ok (risk_levels.map fun risk_percent =>
      (risk_percent, sizing_row capital stop_loss_percentage leverage risk_percent))

/-- Result of the reverse calculation tab. -/
structure ReverseResult where
  total_capital_needed : ℚ
  position_size : ℚ
  dollar_risk : ℚ
deriving DecidableEq

/-- Model of the reverse calculation (src/app.py lines 556-559). -/
def calculate_reverse (available_margin rev_sl rev_leverage rev_risk : ℚ) : ReverseResult :=
  let total_capital_needed := available_margin * 100 / rev_risk
  let position_size := available_margin * rev_leverage
  let dollar_risk := position_size * rev_sl / 100
  { total_capital_needed := total_capital_needed
    position_size := position_size
    dollar_risk := dollar_risk }

/-- One configured trade slot in the multi-trade tab. -/
structure PortfolioEntry where
  riskPercent : ℚ
  slPercent : ℚ
  leverage : ℚ
deriving DecidableEq

/-- The per-trade figures computed in the multi-trade tab
(src/app.py lines 592-594). -/
structure TradeFigures where
  dollar_risk : ℚ
  position_size : ℚ
  margin_needed : ℚ
deriving DecidableEq

/-- Per-entry calculation of the multi-trade tab (src/app.py lines 592-594). -/
def trade_figures (capital : ℚ) (e : PortfolioEntry) : TradeFigures :=
  let dollar_risk := capital * e.riskPercent / 100
  let position_size := dollar_risk / (e.slPercent / 100)
  let margin_needed := position_size / e.leverage
  { dollar_risk := dollar_risk
    position_size := position_size
    margin_needed := margin_needed }

/-- Advisory classification of the aggregate risk (src/app.py lines 625-628):
an error banner above 5%, a warning banner above 3%, nothing otherwise. -/
inductive RiskSignal where
  | highRisk
  | elevatedRisk
  | noSignal
deriving DecidableEq

/-- Portfolio summary of the multi-trade tab (src/app.py lines 604-628). -/
structure PortfolioSummary where
  rows : List TradeFigures
  total_risk : ℚ
  total_margin : ℚ
  total_risk_percent : ℚ
  free_margin : ℚ
  signal : RiskSignal
deriving DecidableEq

/-- Model of the portfolio aggregation (src/app.py lines 604-628). -/
def aggregatePortfolio (capital : ℚ) (entries : List PortfolioEntry) : PortfolioSummary :=
  let rows := entries.map (trade_figures capital)
  let total_risk := (rows.map TradeFigures.dollar_risk).sum
  let total_margin := (rows.map TradeFigures.margin_needed).sum
  let total_risk_percent := total_risk / capital * 100
  { rows := rows
    total_risk := total_risk
    total_margin := total_margin
    total_risk_percent := total_risk_percent
    free_margin := capital - total_margin
    signal :=
      if total_risk_percent > 5 then .highRisk
      else if total_risk_percent > 3 then .elevatedRisk
      else .noSignal }

/-! Helper lemmas shared by the claim theorems. -/

theorem char_one_toNat : ('1' : Char).toNat = 49 := rfl

theorem char_two_toNat : ('2' : Char).toNat = 50 := rfl

theorem check_risk_levels_eq_none_iff (rl : List ℚ) :
    check_risk_levels rl = none ↔ ∀ r ∈ rl, 0 < r ∧ r < 100 := by
  induction rl with
  | nil => simp [check_risk_levels]
  | cons r rest ih =>
    simp only [check_risk_levels, List.mem_cons]
    split_ifs with h1 h2
    · constructor
      · intro h; exact h.elim
      · intro h
        exact absurd (h r (Or.inl rfl)).1 (not_lt.mpr h1)
    · constructor
      · intro h; exact h.elim
      · intro h
        exact absurd (h r (Or.inl rfl)).2 (not_lt.mpr h2)
    · rw [ih]
      constructor
      · intro h x hx
        rcases hx with hx | hx
        · subst hx; exact ⟨not_le.mp h1, not_le.mp h2⟩
        · exact h x hx
      · intro h x hx
        exact h x (Or.inr hx)

theorem validate_inputs_eq_none_iff (capital sl : ℚ) (rl : List ℚ) (lev : ℚ) :
    validate_inputs capital sl rl lev = none ↔
      0 < capital ∧ 0 < sl ∧ sl < 100 ∧ 1 ≤ lev ∧ lev ≤ 125 ∧ rl ≠ [] ∧
        ∀ r ∈ rl, 0 < r ∧ r < 100 := by
  unfold validate_inputs
  split_ifs with h1 h2 h3 h4 h5 h6
  · exact iff_of_false (by simp) fun h => absurd h.1 (not_lt.mpr h1)
  · exact iff_of_false (by simp) fun h => absurd h.2.1 (not_lt.mpr h2)
  · exact iff_of_false (by simp) fun h => absurd h.2.2.1 (not_lt.mpr h3)
  · exact iff_of_false (by simp) fun h => absurd h.2.2.2.1 (not_le.mpr h4)
  · exact iff_of_false (by simp) fun h => absurd h.2.2.2.2.1 (not_le.mpr h5)
  · exact iff_of_false (by simp)
      fun h => h.2.2.2.2.2.1 (List.isEmpty_iff.mp h6)
  · rw [check_risk_levels_eq_none_iff]
    constructor
    · intro h
      exact ⟨not_le.mp h1, not_le.mp h2, not_le.mp h3, not_lt.mp h4, not_lt.mp h5,
        fun hnil => h6 (List.isEmpty_iff.mpr hnil), h⟩
    · intro h
      exact h.2.2.2.2.2.2

theorem calculate_sl_eq (e s : ℚ) (d : String) (he : 0 < e) :
    calculate_sl_from_prices e s d = |e - s| / e * 100 := by
  unfold calculate_sl_from_prices
  have h100 : |(100 : ℚ)| = 100 := by norm_num
  split_ifs with hd
  · rw [abs_mul, abs_div, abs_of_pos he, h100]
  · rw [abs_mul, abs_div, abs_of_pos he, h100, abs_sub_comm]

theorem sortedDedup_sorted_lt (xs : List ℚ) : (sortedDedup xs).Sorted (· < ·) := by
  have hs : (sortedDedup xs).Sorted (· ≤ ·) := List.sorted_insertionSort _ _
  have hp : List.Perm (sortedDedup xs) xs.dedup := List.perm_insertionSort _ _
  have hn : (sortedDedup xs).Nodup := hp.nodup_iff.mpr (List.nodup_dedup xs)
  exact hs.lt_of_le hn

theorem sortedDedup_perm_eq (xs ys : List ℚ) (h : List.Perm xs ys) :
    sortedDedup xs = sortedDedup ys := by
  apply List.eq_of_perm_of_sorted ?_ (List.sorted_insertionSort _ _)
    (List.sorted_insertionSort _ _)
  exact ((List.perm_insertionSort _ _).trans h.dedup).trans
    (List.perm_insertionSort _ _).symm

theorem parse_ok_sortedDedup (s : String) (l : List ℚ)
    (h : parse_risk_levels s = .ok l) : ∃ vs, l = sortedDedup vs := by
  unfold parse_risk_levels at h
  split_ifs at h
  split at h
  · exact absurd h (by simp)
  · exact absurd h (by simp)
  · exact ⟨_, (Except.ok.inj h).symm⟩

/-! Claim theorems. -/

/-- Claim C4 counterexample: with entry=100, stop=98 and direction Short the
code returns the percentage 2; it does not fail with a direction-mismatch
error, and indeed it returns the very same value as for Long. -/
theorem short_direction_no_error_counterexample :
    calculate_sl_from_prices 100 98 ("Short") = 2 ∧
    calculate_sl_from_prices 100 98 ("Short") =
      calculate_sl_from_prices 100 98 ("Long") := by
  constructor
  · norm_num +decide [calculate_sl_from_prices, abs_of_nonpos]
  · norm_num +decide [calculate_sl_from_prices, abs_sub_comm]

/-- Claim C4 amended: `calculate_sl_from_prices` performs no direction
consistency check: for entryPrice > 0 it totals to the positive percentage
|entry − stop| / entry × 100 for both declared directions, and entry=100,
stop=98 yields 2.0 with direction Short exactly as with Long. -/
theorem sl_from_prices_ignores_direction :
    (∀ e s d, 0 < e → calculate_sl_from_prices e s d = |e - s| / e * 100) ∧
    calculate_sl_from_prices 100 98 ("Long") = 2 ∧
    calculate_sl_from_prices 100 98 ("Short") = 2 := by
  refine ⟨fun e s d he => calculate_sl_eq e s d he, ?_, ?_⟩
  · norm_num +decide [calculate_sl_from_prices]
  · norm_num +decide [calculate_sl_from_prices, abs_of_nonpos]

/-- Claim C4 amended witness: the general formula applied at entry=200,
stop=150 with an arbitrary direction string. -/
theorem sl_from_prices_ignores_direction_witness :
    calculate_sl_from_prices 200 150 ("Neither") = |(200 : ℚ) - 150| / 200 * 100 :=
  sl_from_prices_ignores_direction.1 200 150 ("Neither") (by norm_num)

/-- Claim C9: for availableMargin > 0, leverage ≥ 1 and targetRiskPercent
> 0, the reverse calculation returns positionSize = availableMargin ×
leverage, dollarRisk = positionSize × stopLossPercent / 100, and
requiredCapital = availableMargin × 100 / targetRiskPercent. -/
theorem reverse_calculation_formulas (am sl lev risk : ℚ)
    (h1 : 0 < am) (h2 : 1 ≤ lev) (h3 : 0 < risk) :
    (calculate_reverse am sl lev risk).position_size = am * lev ∧
    (calculate_reverse am sl lev risk).dollar_risk =
      (calculate_reverse am sl lev risk).position_size * sl / 100 ∧
    (calculate_reverse am sl lev risk).total_capital_needed = am * 100 / risk :=
  ⟨rfl, rfl, rfl⟩

/-- Claim C9 witness: availableMargin=100, stopLoss%=2, leverage=10, target
risk 1%. -/
theorem reverse_calculation_formulas_witness :
    (calculate_reverse 100 2 10 1).position_size = 100 * 10 ∧
    (calculate_reverse 100 2 10 1).dollar_risk =
      (calculate_reverse 100 2 10 1).position_size * 2 / 100 ∧
    (calculate_reverse 100 2 10 1).total_capital_needed = 100 * 100 / 1 :=
  reverse_calculation_formulas 100 2 10 1 (by norm_num) (by norm_num) (by norm_num)

/-- Claim C10: the declared position type never affects
`calculate_sl_from_prices`: for entryPrice > 0 every direction string gives
the same non-negative percentage |entry − stop| / entry × 100. -/
theorem direction_never_affects_sl (e s : ℚ) (d₁ d₂ : String) (he : 0 < e) :
    calculate_sl_from_prices e s d₁ = |e - s| / e * 100 ∧
    0 ≤ calculate_sl_from_prices e s d₁ ∧
    calculate_sl_from_prices e s d₁ = calculate_sl_from_prices e s d₂ := by
  refine ⟨calculate_sl_eq e s d₁ he, ?_, ?_⟩
  · rw [calculate_sl_eq e s d₁ he]
    exact mul_nonneg (div_nonneg (abs_nonneg _) he.le) (by norm_num)
  · rw [calculate_sl_eq e s d₁ he, calculate_sl_eq e s d₂ he]

/-- Claim C10 witness: entry=100, stop=98 with directions Long and Short. -/
theorem direction_never_affects_sl_witness :
    calculate_sl_from_prices 100 98 ("Long") = |(100 : ℚ) - 98| / 100 * 100 ∧
    0 ≤ calculate_sl_from_prices 100 98 ("Long") ∧
    calculate_sl_from_prices 100 98 ("Long") =
      calculate_sl_from_prices 100 98 ("Short") :=
  direction_never_affects_sl 100 98 ("Long") ("Short") (by norm_num)

/-- Claim C3: `validate_inputs` checks capital, then the stop-loss bounds,
then the leverage bounds, then non-emptiness of the risk levels, then the
risk levels themselves, in that fixed order, returning the message of the
first violated rule only; with capital = 0 and leverage = 200
simultaneously, the capital error is the one returned. -/
theorem validation_first_error_wins :
    (∀ c sl rl lev, c ≤ 0 →
      validate_inputs c sl rl lev = some ("سرمایه باید بیشتر از صفر باشد.")) ∧
    (∀ c sl rl lev, 0 < c → sl ≤ 0 →
      validate_inputs c sl rl lev = some ("درصد حد ضرر باید بیشتر از صفر باشد.")) ∧
    (∀ c sl rl lev, 0 < c → 0 < sl → 100 ≤ sl →
      validate_inputs c sl rl lev = some ("درصد حد ضرر نمی‌تواند بیشتر یا مساوی ۱۰۰٪ باشد.")) ∧
    (∀ c sl rl lev, 0 < c → 0 < sl → sl < 100 → lev < 1 →
      validate_inputs c sl rl lev = some ("اهرم باید حداقل ۱ باشد.")) ∧
    (∀ c sl rl lev, 0 < c → 0 < sl → sl < 100 → 1 ≤ lev → 125 < lev →
      validate_inputs c sl rl lev = some ("اهرم نمی‌تواند بیشتر از ۱۲۵ باشد.")) ∧
    (∀ c sl lev, 0 < c → 0 < sl → sl < 100 → 1 ≤ lev → lev ≤ 125 →
      validate_inputs c sl [] lev = some ("لطفاً حداقل یک سطح ریسک وارد کنید.")) ∧
    (∀ c sl rl lev, 0 < c → 0 < sl → sl < 100 → 1 ≤ lev → lev ≤ 125 → rl ≠ [] →
      validate_inputs c sl rl lev = check_risk_levels rl) ∧
    validate_inputs 0 2 [1] 200 = some ("سرمایه باید بیشتر از صفر باشد.") := by
  refine ⟨?_, ?_, ?_, ?_, ?_, ?_, ?_, ?_⟩
  · intro c sl rl lev h1
    unfold validate_inputs
    rw [if_pos h1]
  · intro c sl rl lev h1 h2
    unfold validate_inputs
    rw [if_neg (not_le.mpr h1), if_pos h2]
  · intro c sl rl lev h1 h2 h3
    unfold validate_inputs
    rw [if_neg (not_le.mpr h1), if_neg (not_le.mpr h2), if_pos h3]
  · intro c sl rl lev h1 h2 h3 h4
    unfold validate_inputs
    rw [if_neg (not_le.mpr h1), if_neg (not_le.mpr h2), if_neg (not_le.mpr h3),
      if_pos h4]
  · intro c sl rl lev h1 h2 h3 h4 h5
    unfold validate_inputs
    rw [if_neg (not_le.mpr h1), if_neg (not_le.mpr h2), if_neg (not_le.mpr h3),
      if_neg (not_lt.mpr h4), if_pos h5]
  · intro c sl lev h1 h2 h3 h4 h5
    unfold validate_inputs
    rw [if_neg (not_le.mpr h1), if_neg (not_le.mpr h2), if_neg (not_le.mpr h3),
      if_neg (not_lt.mpr h4), if_neg (not_lt.mpr h5), if_pos (by simp)]
  · intro c sl rl lev h1 h2 h3 h4 h5 h6
    unfold validate_inputs
    rw [if_neg (not_le.mpr h1), if_neg (not_le.mpr h2), if_neg (not_le.mpr h3),
      if_neg (not_lt.mpr h4), if_neg (not_lt.mpr h5),
      if_neg (mt List.isEmpty_iff.mp h6)]
  · norm_num [validate_inputs]

/-- Claim C3 witness: capital 0 with leverage 200 returns the capital
error, and with a valid capital the same leverage 200 input instead returns
the leverage error, so the first-checked rule wins. -/
theorem validation_first_error_wins_witness :
    validate_inputs 0 2 [1] 200 = some ("سرمایه باید بیشتر از صفر باشد.") ∧
    validate_inputs 1000 2 [1] 200 = some ("اهرم نمی‌تواند بیشتر از ۱۲۵ باشد.") :=
  ⟨validation_first_error_wins.1 0 2 [1] 200 (le_refl 0),
   validation_first_error_wins.2.2.2.2.1 1000 2 [1] 200 (by norm_num) (by norm_num)
     (by norm_num) (by norm_num) (by norm_num)⟩

/-- Claim C7: `validate_inputs` rejects stopLossPercent = 100 and rejects
any input containing a risk level equal to 100 (strict exclusive upper
bound), while accepting inputs whose stop-loss percent and risk levels are
strictly between 0 and 100 with the other constraints met. -/
theorem hundred_percent_rejected :
    (∀ c rl lev, validate_inputs c 100 rl lev ≠ none) ∧
    (∀ c sl rl lev, (100 : ℚ) ∈ rl → validate_inputs c sl rl lev ≠ none) ∧
    (∀ c sl rl lev, 0 < c → 0 < sl → sl < 100 → 1 ≤ lev → lev ≤ 125 → rl ≠ [] →
      (∀ r ∈ rl, 0 < r ∧ r < 100) → validate_inputs c sl rl lev = none) := by
  refine ⟨?_, ?_, ?_⟩
  · intro c rl lev h
    have hv := (validate_inputs_eq_none_iff c 100 rl lev).mp h
    exact absurd hv.2.2.1 (lt_irrefl 100)
  · intro c sl rl lev hmem h
    have hv := ((validate_inputs_eq_none_iff c sl rl lev).mp h).2.2.2.2.2.2 100 hmem
    exact absurd hv.2 (lt_irrefl 100)
  · intro c sl rl lev h1 h2 h3 h4 h5 h6 h7
    exact (validate_inputs_eq_none_iff c sl rl lev).mpr ⟨h1, h2, h3, h4, h5, h6, h7⟩

/-- Claim C7 witness: stop-loss 100 and risk level 100 are rejected;
stop-loss 99.9 with risk level 99.99 is accepted. -/
theorem hundred_percent_rejected_witness :
    validate_inputs 1000 100 [1] 1 ≠ none ∧
    validate_inputs 1000 2 [100] 1 ≠ none ∧
    validate_inputs 1000 (999 / 10) [9999 / 100] 1 = none :=
  ⟨hundred_percent_rejected.1 1000 [1] 1,
   hundred_percent_rejected.2.1 1000 2 [100] 1 (by simp),
   hundred_percent_rejected.2.2 1000 (999 / 10) [9999 / 100] 1 (by norm_num)
     (by norm_num) (by norm_num) (by norm_num) (by norm_num) (by simp)
     (by intro r hr; rw [List.mem_singleton] at hr; subst hr; norm_num)⟩

/-- Claim C1: for every validated input, `create_risk_management_table`
succeeds with one row per risk level r carrying dollarRisk = capital × r /
100 and positionSize = dollarRisk / (stopLossPercent / 100), so that
positionSize × (stopLossPercent / 100) = dollarRisk for every row. -/
theorem position_sizing_rows_correct (capital sl : ℚ) (rl : List ℚ) (lev : ℚ)
    (h : validate_inputs capital sl rl lev = none) :
    ∃ rows, create_risk_management_table capital sl rl lev = .ok rows ∧
      rows.map Prod.fst = rl ∧
      ∀ p ∈ rows,
        p.2.dollar_risk = capital * p.1 / 100 ∧
        p.2.position_size = p.2.dollar_risk / (sl / 100) ∧
        p.2.position_size * (sl / 100) = p.2.dollar_risk := by
  have hv := (validate_inputs_eq_none_iff capital sl rl lev).mp h
  have hsl : sl / 100 ≠ 0 := div_ne_zero (ne_of_gt hv.2.1) (by norm_num)
  refine ⟨rl.map fun r => (r, sizing_row capital sl lev r), ?_, ?_, ?_⟩
  · unfold create_risk_management_table
    rw [h]
  · have hid : (Prod.fst ∘ fun r : ℚ => (r, sizing_row capital sl lev r)) = id := rfl
    rw [List.map_map, hid, List.map_id]
  · intro p hp
    simp only [List.mem_map] at hp
    obtain ⟨r, hr, rfl⟩ := hp
    simp only [sizing_row]
    refine ⟨by ring, by trivial, ?_⟩
    exact div_mul_cancel₀ _ hsl

/-- Claim C1 witness: the spec scenario capital=1000, stopLoss%=2,
leverage=1, riskLevels=[1, 2] gives the rows (10, 500) and (20, 1000) with
no margin entry, and the general row properties hold there. -/
theorem position_sizing_rows_correct_witness :
    create_risk_management_table 1000 2 [1, 2] 1 =
      .ok [(1, ⟨10, 500, none⟩), (2, ⟨20, 1000, none⟩)] ∧
    (∃ rows, create_risk_management_table 1000 2 [1, 2] 1 = .ok rows ∧
      rows.map Prod.fst = [1, 2] ∧
      ∀ p ∈ rows,
        p.2.dollar_risk = 1000 * p.1 / 100 ∧
        p.2.position_size = p.2.dollar_risk / (2 / 100) ∧
        p.2.position_size * (2 / 100) = p.2.dollar_risk) :=
  ⟨by norm_num [create_risk_management_table, validate_inputs, check_risk_levels,
      sizing_row],
   position_sizing_rows_correct 1000 2 [1, 2] 1
     (by norm_num [validate_inputs, check_risk_levels])⟩

/-- Claim C2: for every validated input, each row of the table carries a
margin entry exactly when leverage > 1, that entry equals positionSize /
leverage, and margin × leverage = positionSize whenever the entry is
present; with leverage = 1 no margin entry exists. -/
theorem margin_row_iff_leverage (capital sl : ℚ) (rl : List ℚ) (lev : ℚ)
    (h : validate_inputs capital sl rl lev = none) :
    ∃ rows, create_risk_management_table capital sl rl lev = .ok rows ∧
      ∀ p ∈ rows,
        (p.2.margin_required.isSome ↔ 1 < lev) ∧
        ∀ m, p.2.margin_required = some m →
          m = p.2.position_size / lev ∧ m * lev = p.2.position_size := by
  have hv := (validate_inputs_eq_none_iff capital sl rl lev).mp h
  have hlev : lev ≠ 0 := ne_of_gt (lt_of_lt_of_le one_pos hv.2.2.2.1)
  refine ⟨rl.map fun r => (r, sizing_row capital sl lev r), ?_, ?_⟩
  · unfold create_risk_management_table
    rw [h]
  · intro p hp
    simp only [List.mem_map] at hp
    obtain ⟨r, hr, rfl⟩ := hp
    simp only [sizing_row]
    constructor
    · split_ifs with hgt
      · simp [hgt]
      · simp [hgt]
    · intro m hm
      split_ifs at hm with hgt
      obtain rfl := Option.some.inj hm
      exact ⟨rfl, div_mul_cancel₀ _ hlev⟩

/-- Claim C2 witness: the spec scenario capital=1000, stopLoss%=2,
leverage=10, risk 1% gives dollarRisk=10, positionSize=500,
marginRequired=50, and the margin properties hold there. -/
theorem margin_row_iff_leverage_witness :
    create_risk_management_table 1000 2 [1] 10 =
      .ok [(1, ⟨10, 500, some 50⟩)] ∧
    (∃ rows, create_risk_management_table 1000 2 [1] 10 = .ok rows ∧
      ∀ p ∈ rows,
        (p.2.margin_required.isSome ↔ (1 : ℚ) < 10) ∧
        ∀ m, p.2.margin_required = some m →
          m = p.2.position_size / 10 ∧ m * 10 = p.2.position_size) :=
  ⟨by norm_num [create_risk_management_table, validate_inputs, check_risk_levels,
      sizing_row],
   margin_row_iff_leverage 1000 2 [1] 10
     (by norm_num [validate_inputs, check_risk_levels])⟩

/-- Claim C5 counterexample: whitespace is not a token delimiter for
`parse_risk_levels`: the input "1 2" is one malformed token and yields the
malformed-token error, not the list [1, 2]. -/
theorem whitespace_not_delimiter_counterexample :
    parse_risk_levels ("1 2") = .error ("مقدار \x271 2\x27 معتبر نیست.") ∧
    parse_risk_levels ("1 2") ≠ .ok [1, 2] := by
  constructor
  · norm_num +decide [parse_risk_levels, parseParts, parsePyFloat, pyStrip,
      splitCommas, sortedDedup, digitsVal, parseSign, breakOn, isPySpace,
      show ("1 2").data = ['1', ' ', '2'] from by decide]
  · intro hcontra
    rw [show parse_risk_levels ("1 2") =
        .error ("مقدار \x271 2\x27 معتبر نیست.") from by
      norm_num +decide [parse_risk_levels, parseParts, parsePyFloat, pyStrip,
        splitCommas, sortedDedup, digitsVal, parseSign, breakOn, isPySpace,
        show ("1 2").data = ['1', ' ', '2'] from by decide]] at hcontra
    exact Except.noConfusion hcontra

/-- Claim C5 amended: `parse_risk_levels` splits only on commas, after
first normalizing the localized separator `،` to a comma; whitespace
between digits is not a delimiter, so "1,2" and "1،2" both parse to [1, 2]
while "1 2" fails with a malformed-token error naming the token. -/
theorem split_delimiters_comma_only :
    parse_risk_levels ("1,2") = .ok [1, 2] ∧
    parse_risk_levels ("1،2") = .ok [1, 2] ∧
    parse_risk_levels ("1 2") = .error ("مقدار \x271 2\x27 معتبر نیست.") := by
  refine ⟨?_, ?_, ?_⟩
  · norm_num +decide [parse_risk_levels, parseParts, parsePyFloat, pyStrip,
      splitCommas, sortedDedup, digitsVal, parseSign, breakOn, isPySpace,
      List.dedup, List.pwFilter, List.insertionSort, List.orderedInsert,
      char_one_toNat, char_two_toNat,
      show ("1,2").data = ['1', ',', '2'] from by decide]
  · norm_num +decide [parse_risk_levels, parseParts, parsePyFloat, pyStrip,
      splitCommas, sortedDedup, digitsVal, parseSign, breakOn, isPySpace,
      List.dedup, List.pwFilter, List.insertionSort, List.orderedInsert,
      char_one_toNat, char_two_toNat,
      show ("1،2").data = ['1', '،', '2'] from by decide]
  · norm_num +decide [parse_risk_levels, parseParts, parsePyFloat, pyStrip,
      splitCommas, sortedDedup, digitsVal, parseSign, breakOn, isPySpace,
      show ("1 2").data = ['1', ' ', '2'] from by decide]

/-- Claim C6: `parse_risk_levels` deduplicates by exact numeric value and
returns the ascending sorted list regardless of insertion order, and is
idempotent on its own output: "1,2,2,1" parses to [1, 2], and re-parsing
the serialization "1,2" of that output yields [1, 2] again. -/
theorem parse_dedup_sort_idempotent :
    parse_risk_levels ("1,2,2,1") = .ok [1, 2] ∧
    parse_risk_levels ("1,2") = .ok [1, 2] ∧
    (∀ s l, parse_risk_levels s = .ok l → l.Sorted (· < ·)) ∧
    (∀ xs ys : List ℚ, List.Perm xs ys → sortedDedup xs = sortedDedup ys) := by
  refine ⟨?_, ?_, ?_, ?_⟩
  · norm_num +decide [parse_risk_levels, parseParts, parsePyFloat, pyStrip,
      splitCommas, sortedDedup, digitsVal, parseSign, breakOn, isPySpace,
      List.dedup, List.pwFilter, List.insertionSort, List.orderedInsert,
      char_one_toNat, char_two_toNat,
      show ("1,2,2,1").data = ['1', ',', '2', ',', '2', ',', '1'] from by decide]
  · norm_num +decide [parse_risk_levels, parseParts, parsePyFloat, pyStrip,
      splitCommas, sortedDedup, digitsVal, parseSign, breakOn, isPySpace,
      List.dedup, List.pwFilter, List.insertionSort, List.orderedInsert,
      char_one_toNat, char_two_toNat,
      show ("1,2").data = ['1', ',', '2'] from by decide]
  · intro s l h
    obtain ⟨vs, rfl⟩ := parse_ok_sortedDedup s l h
    exact sortedDedup_sorted_lt vs
  · exact sortedDedup_perm_eq

/-- Claim C6 witness: the sortedness property applied to the parse of
"1,2", and order-independence applied to the permuted lists [2, 1] and
[1, 2]. -/
theorem parse_dedup_sort_idempotent_witness :
    ([1, 2] : List ℚ).Sorted (· < ·) ∧ sortedDedup [2, 1] = sortedDedup [1, 2] :=
  ⟨parse_dedup_sort_idempotent.2.2.1 ("1,2") [1, 2]
     (by norm_num +decide [parse_risk_levels, parseParts, parsePyFloat, pyStrip,
       splitCommas, sortedDedup, digitsVal, parseSign, breakOn, isPySpace,
       List.dedup, List.pwFilter, List.insertionSort, List.orderedInsert,
       char_one_toNat, char_two_toNat,
       show ("1,2").data = ['1', ',', '2'] from by decide]),
   parse_dedup_sort_idempotent.2.2.2 [2, 1] [1, 2] (List.Perm.swap 2 1 []).symm⟩

/-- Claim C8: the portfolio aggregation computes per entry dollarRisk =
capital × riskPercent / 100, positionSize = dollarRisk / (slPercent / 100)
and marginNeeded = positionSize / leverage, sums them into totalRisk and
totalMargin, reports totalRiskPercent = totalRisk / capital × 100 and
freeMargin = capital − totalMargin (negative values included as ordinary
results), and signals high risk exactly when totalRiskPercent > 5,
elevated risk exactly when 3 < totalRiskPercent ≤ 5, and nothing
otherwise; the two-entry scenario at capital 1000 gives totalRisk = 40,
totalRiskPercent = 4 and the elevated-risk signal only. -/
theorem portfolio_aggregation_correct :
    (∀ capital e, trade_figures capital e =
      { dollar_risk := capital * e.riskPercent / 100
        position_size := capital * e.riskPercent / 100 / (e.slPercent / 100)
        margin_needed :=
          capital * e.riskPercent / 100 / (e.slPercent / 100) / e.leverage }) ∧
    (∀ capital entries,
      (aggregatePortfolio capital entries).rows =
        entries.map (trade_figures capital) ∧
      (aggregatePortfolio capital entries).total_risk =
        ((entries.map (trade_figures capital)).map TradeFigures.dollar_risk).sum ∧
      (aggregatePortfolio capital entries).total_margin =
        ((entries.map (trade_figures capital)).map TradeFigures.margin_needed).sum ∧
      (aggregatePortfolio capital entries).total_risk_percent =
        (aggregatePortfolio capital entries).total_risk / capital * 100 ∧
      (aggregatePortfolio capital entries).free_margin =
        capital - (aggregatePortfolio capital entries).total_margin ∧
      ((aggregatePortfolio capital entries).signal = .highRisk ↔
        5 < (aggregatePortfolio capital entries).total_risk_percent) ∧
      ((aggregatePortfolio capital entries).signal = .elevatedRisk ↔
        3 < (aggregatePortfolio capital entries).total_risk_percent ∧
          (aggregatePortfolio capital entries).total_risk_percent ≤ 5) ∧
      ((aggregatePortfolio capital entries).signal = .noSignal ↔
        (aggregatePortfolio capital entries).total_risk_percent ≤ 3)) ∧
    aggregatePortfolio 1000 [⟨2, 2, 1⟩, ⟨2, 2, 1⟩] =
      { rows := [⟨20, 1000, 1000⟩, ⟨20, 1000, 1000⟩]
        total_risk := 40
        total_margin := 2000
        total_risk_percent := 4
        free_margin := -1000
        signal := .elevatedRisk } := by
  refine ⟨fun capital e => rfl, ?_, ?_⟩
  · intro capital entries
    refine ⟨rfl, rfl, rfl, rfl, rfl, ?_, ?_, ?_⟩
    · unfold aggregatePortfolio
      dsimp only
      split_ifs with g1 g2
      · exact iff_of_true rfl g1
      · exact iff_of_false (by simp) g1
      · exact iff_of_false (by simp) g1
    · unfold aggregatePortfolio
      dsimp only
      split_ifs with g1 g2
      · exact iff_of_false (by simp) fun hh => absurd hh.2 (not_le.mpr g1)
      · exact iff_of_true rfl ⟨g2, not_lt.mp g1⟩
      · exact iff_of_false (by simp) fun hh => absurd hh.1 g2
    · unfold aggregatePortfolio
      dsimp only
      split_ifs with g1 g2
      · exact iff_of_false (by simp) (not_le.mpr (by linarith))
      · exact iff_of_false (by simp) (not_le.mpr (by linarith))
      · exact iff_of_true rfl (not_lt.mp g2)
  · norm_num [aggregatePortfolio, trade_figures]

end TradeCalc
